import Mathlib

/-!
Verification of the market-research-bot repository's core deterministic logic.

The Python sources are shallowly embedded: monetary amounts become exact
rationals (`ℚ`, idealising Python floats), Python `round(x, 2)` becomes
round-half-to-even on rationals, strings become Lean `String`s, and the
external collaborators (HTTP fetch, language model, `eval`, Google Sheets)
become explicit function parameters or `Option` inputs.
-/

namespace MRBot

/-! ### String helpers (Python `str.lower`, `in`, `str.replace`) -/

/-- Lower-case every character of a string (models Python `str.lower()` on
ASCII input). -/
def lowerStr (s : String) : String := ⟨s.data.map Char.toLower⟩

/-- Boolean test that `p` is an initial segment of `s`. -/
def leadsWith : List Char → List Char → Bool
  | [], _ => true
  | _ :: _, [] => false
  | p :: ps, c :: cs => p == c && leadsWith ps cs

/-- Boolean substring containment (Python `pat in s`). -/
def hasSub (pat : List Char) : List Char → Bool
  | [] => pat.isEmpty
  | c :: rest => leadsWith pat (c :: rest) || hasSub pat rest

/-- Fuelled worker for `replaceL`: each step consumes one unit of fuel and at
least one character, so fuel `s.length` is always enough. Structural
recursion on the fuel keeps the definition kernel-evaluable. -/
def replaceLF (pat rep : List Char) : Nat → List Char → List Char
  | _, [] => []
  | 0, s => s
  | fuel + 1, c :: rest =>
    if pat ≠ [] ∧ leadsWith pat (c :: rest) then
      rep ++ replaceLF pat rep fuel (rest.drop (pat.length - 1))
    else
      c :: replaceLF pat rep fuel rest

/-- Replace every non-overlapping occurrence of `pat` (assumed non-empty when
it matters) by `rep`, scanning left to right: Python `str.replace`. -/
def replaceL (pat rep s : List Char) : List Char := replaceLF pat rep s.length s

/-- `String` version of `replaceL` (Python `str.replace(pat, rep)`). -/
def replStr (pat rep s : String) : String := ⟨replaceL pat.data rep.data s.data⟩

/-! ### Rounding (Python `round(x, 2)` idealised over `ℚ`) -/

/-- Round a rational to the nearest integer, ties to even (Python `round`). -/
def rndHalfEven (q : ℚ) : ℤ :=
  if q - ⌊q⌋ < 1/2 then ⌊q⌋
  else if 1/2 < q - ⌊q⌋ then ⌊q⌋ + 1
  else if ⌊q⌋ % 2 = 0 then ⌊q⌋ else ⌊q⌋ + 1

/-- Round to 2 decimal places: Python `round(x, 2)` over exact rationals. -/
def round2 (q : ℚ) : ℚ := (rndHalfEven (q * 100) : ℚ) / 100

/-- Python `int(x)`: truncation toward zero, on a normalised rational. -/
def truncQ (q : ℚ) : ℤ := Int.tdiv q.num q.den

/-! ### Margin calculator — `EnhancedDropshippingBot.calculate_margins`
(`src/multi_country_dropshipping.py`, lines 255–270). -/

/-- Result record of `calculate_margins`. -/
structure Margins where
  profit : ℚ
  margin_percent : ℚ
  total_cost : ℚ
  recommended_price : ℚ
deriving DecidableEq

/-- Embedding of `calculate_margins(amazon_price, supplier_price)`:
shipping cost 5.0, transaction fee 3% of the retail price, margin percent
guarded by `amazon_price > 0`, all outputs rounded to 2 decimals, and a
recommended price undercutting retail by 10%. -/
def calculate_margins (amazon_price supplier_price : ℚ) : Margins :=
  let shipping_cost : ℚ := 5
  let transaction_fee : ℚ := amazon_price * (3/100)
  let total_cost := supplier_price + shipping_cost + transaction_fee
  let profit := amazon_price - total_cost
  let margin_percent := if 0 < amazon_price then profit / amazon_price * 100 else 0
  { profit := round2 profit
    margin_percent := round2 margin_percent
    total_cost := round2 total_cost
    recommended_price := round2 (amazon_price * (9/10)) }

/-! ### Opportunity scorer — `score_product_opportunity`
(`src/multi_country_dropshipping.py`, lines 272–308). -/

/-- Embedding of `score_product_opportunity`: the source starts from
`score = 0` and accumulates one contribution from each of the three
`if`/`elif` chains, then returns `min(score, 100)`; the accumulated value is
exactly the sum of the three chain contributions. -/
def score_product_opportunity (margin profit amazon_price : ℚ) : ℤ :=
  let s1 : ℤ :=
    if margin ≥ 50 then 40
    else if margin ≥ 40 then 30
    else if margin ≥ 30 then 20
    else if margin ≥ 20 then 10
    else 0
  let s2 : ℤ :=
    if profit ≥ 30 then 30
    else if profit ≥ 20 then 20
    else if profit ≥ 10 then 10
    else 0
  let s3 : ℤ :=
    if 20 ≤ amazon_price ∧ amazon_price ≤ 80 then 30
    else if 10 ≤ amazon_price ∧ amazon_price ≤ 100 then 20
    else if 0 < amazon_price then 10
    else 0
  min (s1 + s2 + s3) 100

/-- Margin bucket as the spec words it: `>=50→40, >=40→30, >=30→20,
>=20→10, else 0`. -/
def marginBucket (m : ℚ) : ℤ :=
  if m ≥ 50 then 40 else if m ≥ 40 then 30 else if m ≥ 30 then 20
  else if m ≥ 20 then 10 else 0

/-- Profit bucket as the spec words it: `>=30→30, >=20→20, >=10→10, else 0`. -/
def profitBucket (p : ℚ) : ℤ :=
  if p ≥ 30 then 30 else if p ≥ 20 then 20 else if p ≥ 10 then 10 else 0

/-- Price-band bucket as the spec words it: `20<=price<=80→30,
10<=price<=100→20, price>0→10, else 0`. -/
def priceBandBucket (a : ℚ) : ℤ :=
  if 20 ≤ a ∧ a ≤ 80 then 30 else if 10 ≤ a ∧ a ≤ 100 then 20
  else if 0 < a then 10 else 0

/-! ### Categorizer — `_guess_category`
(`src/multi_country_dropshipping.py`, lines 378–393). -/

/-- Python `any(word in name_lower for word in words)`. -/
def kwMatch (words : List String) (name_lower : String) : Bool :=
  words.any fun w => hasSub w.data name_lower.data

def petWords : List String := ["dog", "cat", "pet", "collar", "leash"]

def kitchenWords : List String := ["kitchen", "cook", "food", "bowl"]

def homeWords : List String := ["home", "decor", "furniture", "lamp"]

def fitnessWords : List String := ["fitness", "yoga", "exercise", "gym"]

def babyWords : List String := ["baby", "infant", "toddler"]

/-- Embedding of `_guess_category(product_name)`: lower-case the name, then
run the ordered first-match-wins keyword-containment chain. -/
def guess_category (product_name : String) : String :=
  let name_lower := lowerStr product_name
  if kwMatch petWords name_lower then "Pet Supplies"
  else if kwMatch kitchenWords name_lower then "Kitchen"
  else if kwMatch homeWords name_lower then "Home & Garden"
  else if kwMatch fitnessWords name_lower then "Fitness"
  else if kwMatch babyWords name_lower then "Baby Products"
  else "Other"

/-! ### Deduplicator — the URL-dedup loop in `MarketResearchBot.scrape_reddit`
(`src/market_research_bot.py`, lines 95–103). -/

/-- One scraped Reddit record; `url` is the record's identity (dedup key). -/
structure RedditItem where
  source : String
  title : String
  content : String
  url : String
  upvotes : Int
  comments : Nat
  timestamp : String
deriving DecidableEq

/-- The dedup loop with its `seen_urls` accumulator (Python uses a set; a
list of the urls seen so far models the same membership test). -/
def dedupeAux (seen : List String) : List RedditItem → List RedditItem
  | [] => []
  | item :: rest =>
    if item.url ∈ seen then dedupeAux seen rest
    else item :: dedupeAux (item.url :: seen) rest

/-- Embedding of the `seen_urls` dedup loop: keep the first record for each
url, in input order. -/
def dedupe (results : List RedditItem) : List RedditItem := dedupeAux [] results

/-! ### Witness inputs for the deduplicator -/

def itemA : RedditItem :=
  { source := "r/SaaS", title := "first A", content := "a", url := "https://reddit.com/A",
    upvotes := 3, comments := 1, timestamp := "t1" }

def itemA2 : RedditItem :=
  { source := "r/SaaS", title := "second A", content := "a2", url := "https://reddit.com/A",
    upvotes := 5, comments := 0, timestamp := "t2" }

def itemB : RedditItem :=
  { source := "r/startups", title := "B", content := "b", url := "https://reddit.com/B",
    upvotes := 1, comments := 2, timestamp := "t3" }

def exItems : List RedditItem := [itemA, itemA2, itemB]

/-! ### Status ledger — `update_product_status`
(`src/streamlit_app.py`, lines 66–86, called at lines 248–276).

A sheet row as loaded by `load_products`: the 16 columns A..P of the
`Products` sheet, with the five score columns already converted to integers.
The Python function addresses the Google-Sheets range `O{row}:P{row}` with
`row_num = row_number + 2` (1 header row, 1-based A1 notation); the model
indexes the list of data rows directly by `row_number`, which is the same
row. The Python `notes` parameter defaults to `""`; the model always takes
the notes argument explicitly, the caller passing `""` for the default. -/
structure ProductRow where
  date_added : String
  product_name : String
  category : String
  country : String
  overall_score : Int
  demand_score : Int
  competition_score : Int
  margin_score : Int
  legal_risk_score : Int
  price : String
  supplier_link : String
  image_url : String
  description : String
  reasoning : String
  status : String
  notes : String
deriving DecidableEq

/-- Embedding of `update_product_status(row_number, new_status, notes="")`:
write `[new_status, notes]` into columns O:P of the addressed row, leaving
every other cell and row unchanged. -/
def update_product_status :
    List ProductRow → Nat → String → String → List ProductRow
  | [], _, _, _ => []
  | r :: rest, 0, new_status, notes =>
    { r with status := new_status, notes := notes } :: rest
  | r :: rest, Nat.succ n, new_status, notes =>
    r :: update_product_status rest n new_status notes

/-! ### Shopify export — `export_to_shopify_csv`
(`src/streamlit_app.py`, lines 88–109). -/

/-- One row of the generated Shopify CSV. -/
structure ShopifyRow where
  handle : String
  title : String
  body_html : String
  vendor : String
  type : String
  tags : String
  published : String
  option1_name : String
  option1_value : String
  variant_price : String
  variant_inventory_tracker : String
  variant_inventory_policy : String
  variant_fulfillment_service : String
  variant_requires_shipping : String
  image_src : String
  status : String
deriving DecidableEq

/-- The per-record row constructor of `export_to_shopify_csv`: slugified
handle, constant vendor/published/option/inventory cells, tags built from
category, country and score, price with `"$"` removed and `"N/A"` replaced
by `"0"`, and constant status `"draft"`. -/
def shopifyRowOf (x : ProductRow) : ShopifyRow :=
  { handle := replStr " " "-" (lowerStr x.product_name)
    title := x.product_name
    body_html := x.description
    vendor := "Dropship"
    type := x.category
    tags := x.category ++ ", " ++ x.country ++ ", Score-" ++ toString x.overall_score
    published := "TRUE"
    option1_name := "Title"
    option1_value := "Default Title"
    variant_price := replStr "N/A" "0" (replStr "$" "" x.price)
    variant_inventory_tracker := "shopify"
    variant_inventory_policy := "deny"
    variant_fulfillment_service := "manual"
    variant_requires_shipping := "TRUE"
    image_src := x.image_url
    status := "draft" }

/-- Embedding of `export_to_shopify_csv(df)`: one Shopify row per input row,
the input left untouched (the model is a pure map). -/
def export_to_shopify_csv (df : List ProductRow) : List ShopifyRow :=
  df.map shopifyRowOf

/-- Modelled from the spec: the `Variant Price` cell as §6 words it — the
numeric price with the currency symbol and `"N/A"` stripped (i.e. removed).
Used only to compare the spec's wording against the code's behaviour. -/
def specVariantPrice (price : String) : String :=
  replStr "N/A" "" (replStr "$" "" price)

/-! ### Witness inputs for the ledger and the export -/

def exRow : ProductRow :=
  { date_added := "2025-01-01 00:00:00", product_name := "Ceramic Mug",
    category := "Other", country := "USA", overall_score := 90,
    demand_score := 82, competition_score := 0, margin_score := 82,
    legal_risk_score := 20, price := "$100", supplier_link := "http://ali/1",
    image_url := "", description := "desc", reasoning := "why",
    status := "pending", notes := "keep me" }

def exRowNA : ProductRow :=
  { date_added := "2025-01-01 00:00:00", product_name := "Mystery Gadget",
    category := "Other", country := "USA", overall_score := 50,
    demand_score := 0, competition_score := 0, margin_score := 0,
    legal_risk_score := 20, price := "N/A", supplier_link := "",
    image_url := "", description := "", reasoning := "",
    status := "approved", notes := "" }

/-! ### Article parser — `parse_article_for_products`
(`src/multi_country_dropshipping.py`, lines 100–146).

The network fetch plus language-model call are abstracted into
`fetched : Option String` (`none` = any exception in the outer `try`,
`some t` = the model's response text reached the parsing code), and the
Python builtin `eval` into `ev : String → Option (PyVal α)` (`none` = `eval`
raised, `some v` = the value it produced). -/

/-- A Python value as far as the parser cares: a list of products, or
anything that is not a list (`isinstance(products, list)` fails). -/
inductive PyVal (α : Type) where
  | plist (xs : List α)
  | nonlist
deriving DecidableEq

/-- The markdown-fence stripping the source applies to the response text
before `eval`: strip, take the segment after the first triple-backtick when
one occurs, drop a leading `"python"` tag, strip again. -/
def preprocess (response_text : String) : String :=
  let t := response_text.trim
  let t :=
    if hasSub "```".data t.data then
      let piece := (t.splitOn "```").getD 1 ""
      if leadsWith "python".data piece.data then ⟨piece.data.drop 6⟩ else piece
    else t
  t.trim

/-- Embedding of `parse_article_for_products`: every failure — fetch/model
exception, `eval` exception, or a non-list value — collapses to `[]`. -/
def parse_article_for_products (α : Type) (fetched : Option String)
    (ev : String → Option (PyVal α)) : List α :=
  match fetched with
  | none => []
  | some resp =>
    match ev (preprocess resp) with
    | some (PyVal.plist xs) => xs
    | some PyVal.nonlist => []
    | none => []

/-! ### Pipeline — `process_products` and `save_to_google_sheets`
(`src/multi_country_dropshipping.py`, lines 310–376 and 395–435).

The three external searches are abstracted into function parameters; the
pipeline's own control flow (limits, the margin-25 gate, the record merge,
scoring, sheet-row construction) is modelled from the source. -/

/-- One trend article as returned by `find_trend_articles`. -/
structure ArticleInfo where
  title : String
  url : String
  country : String
deriving DecidableEq

/-- Result of `search_amazon_product`. -/
structure AmazonData where
  product_name : String
  amazon_price : ℚ
  amazon_url : String
  country_code : String
deriving DecidableEq

/-- Result of `search_aliexpress_supplier`. -/
structure SupplierData where
  supplier_price : ℚ
  supplier_url : String
deriving DecidableEq

/-- The merged product record `{**amazon_data, **supplier_data, **margins,
...}` built in `process_products` (the wall-clock timestamp is omitted). -/
structure ProductData where
  product_name : String
  amazon_price : ℚ
  amazon_url : String
  country_code : String
  supplier_price : ℚ
  supplier_url : String
  profit : ℚ
  margin_percent : ℚ
  total_cost : ℚ
  recommended_price : ℚ
  source_article : String
  source_url : String
  country : String
  category : String
  overall_score : ℤ
deriving DecidableEq

/-- Embedding of `process_products`: for the first 10 articles and first 5
extracted names each, research the product; drop it when either search fails
or when the computed `margin_percent` is below 25; otherwise merge the data,
categorise, and score. -/
def process_products (articles : List ArticleInfo)
    (parse_names : String → List String)
    (amazon : String → Option AmazonData)
    (supplier : String → Option SupplierData) : List ProductData :=
  (articles.take 10).flatMap fun article =>
    ((parse_names article.url).take 5).filterMap fun pname =>
      match amazon pname with
      | none => none
      | some a =>
        match supplier pname with
        | none => none
        | some s =>
          if (calculate_margins a.amazon_price s.supplier_price).margin_percent
              < 25 then none
          else
            some
              { product_name := a.product_name
                amazon_price := a.amazon_price
                amazon_url := a.amazon_url
                country_code := a.country_code
                supplier_price := s.supplier_price
                supplier_url := s.supplier_url
                profit := (calculate_margins a.amazon_price s.supplier_price).profit
                margin_percent :=
                  (calculate_margins a.amazon_price s.supplier_price).margin_percent
                total_cost :=
                  (calculate_margins a.amazon_price s.supplier_price).total_cost
                recommended_price :=
                  (calculate_margins a.amazon_price s.supplier_price).recommended_price
                source_article := article.title
                source_url := article.url
                country := article.country
                category := guess_category pname
                overall_score :=
                  score_product_opportunity
                    (calculate_margins a.amazon_price s.supplier_price).margin_percent
                    (calculate_margins a.amazon_price s.supplier_price).profit
                    a.amazon_price }

/-- Embedding of the row construction in `save_to_google_sheets`:
`fmt` models Python's float-to-string formatting, `now` the wall-clock
timestamp cell; column O is the constant `'pending'` and column P the
constant `''`. -/
def save_to_google_sheets_rows (fmt : ℚ → String) (now : String)
    (products : List ProductData) : List ProductRow :=
  products.map fun p =>
    { date_added := now
      product_name := p.product_name
      category := p.category
      country := p.country
      overall_score := p.overall_score
      demand_score := truncQ p.margin_percent
      competition_score := 0
      margin_score := truncQ p.profit
      legal_risk_score := 20
      price := "$" ++ fmt p.amazon_price
      supplier_link := p.supplier_url
      image_url := ""
      description :=
        "Amazon: $" ++ fmt p.amazon_price ++ " | Supplier: $" ++
          fmt p.supplier_price ++ " | Profit: $" ++ fmt p.profit ++ " (" ++
          fmt p.margin_percent ++ "% margin)"
      reasoning :=
        "From: " ++ p.source_article ++ ". Recommended sell price: $" ++
          fmt p.recommended_price
      status := "pending"
      notes := "" }

/-! ### Witness inputs for the pipeline -/

def exArticle : ArticleInfo :=
  { title := "Trending now", url := "http://article/1", country := "USA" }

def exAmazonData : AmazonData :=
  { product_name := "Widget", amazon_price := 100,
    amazon_url := "http://amazon/dp/1", country_code := "us" }

def exSupplierData : SupplierData :=
  { supplier_price := 10, supplier_url := "http://aliexpress/1" }

def exParseNames : String → List String := fun _ => ["Widget"]

def exAmazonSearch : String → Option AmazonData := fun _ => some exAmazonData

def exSupplierSearch : String → Option SupplierData :=
  fun _ => some exSupplierData

/-- A fixed stand-in for Python's float-to-string formatting. -/
def exFmt : ℚ → String := fun _ => "F"

/-- The sheet row `save_to_google_sheets` builds for `exProduct` under
`exFmt` and timestamp `"2025-01-01"`. -/
def exSheetRow : ProductRow :=
  { date_added := "2025-01-01", product_name := "Widget", category := "Other",
    country := "USA", overall_score := 90, demand_score := 82,
    competition_score := 0, margin_score := 82, legal_risk_score := 20,
    price := "$F", supplier_link := "http://aliexpress/1", image_url := "",
    description := "Amazon: $F | Supplier: $F | Profit: $F (F% margin)",
    reasoning := "From: Trending now. Recommended sell price: $F",
    status := "pending", notes := "" }

/-- The record `process_products` builds for the witness inputs:
`calculate_margins 100 10 = (82, 82, 18, 90)` and
`score_product_opportunity 82 82 100 = 90`. -/
def exProduct : ProductData :=
  { product_name := "Widget", amazon_price := 100,
    amazon_url := "http://amazon/dp/1", country_code := "us",
    supplier_price := 10, supplier_url := "http://aliexpress/1",
    profit := 82, margin_percent := 82, total_cost := 18,
    recommended_price := 90, source_article := "Trending now",
    source_url := "http://article/1", country := "USA",
    category := "Other", overall_score := 90 }

end MRBot

namespace MRBot

/-! ## Theorems -/

theorem rndHalfEven_intCast (n : ℤ) : rndHalfEven ((n : ℚ)) = n := by
  unfold rndHalfEven
  rw [Int.floor_intCast, sub_self]
  rw [if_pos (by norm_num : (0:ℚ) < 1/2)]

theorem round2_intCast (n : ℤ) : round2 ((n : ℚ)) = (n : ℚ) := by
  unfold round2
  have h1 : (n : ℚ) * 100 = (((n * 100 : ℤ)) : ℚ) := by push_cast; ring
  rw [h1, rndHalfEven_intCast]
  push_cast
  rw [mul_div_assoc]
  norm_num

/-- Evaluation helper: if `q` equals an integer `n` then `round2 q` is that
integer, presented as any rational `c` equal to it. -/
theorem round2_eq_num {q c : ℚ} (n : ℤ) (hq : q = (n : ℚ)) (hc : (n : ℚ) = c) :
    round2 q = c := by
  rw [hq, round2_intCast, hc]

theorem score_eq_buckets (m p a : ℚ) :
    score_product_opportunity m p a =
      min (marginBucket m + profitBucket p + priceBandBucket a) 100 := rfl

theorem marginBucket_nonneg (m : ℚ) : 0 ≤ marginBucket m := by
  unfold marginBucket; split_ifs <;> norm_num

theorem profitBucket_nonneg (p : ℚ) : 0 ≤ profitBucket p := by
  unfold profitBucket; split_ifs <;> norm_num

theorem priceBandBucket_nonneg (a : ℚ) : 0 ≤ priceBandBucket a := by
  unfold priceBandBucket; split_ifs <;> norm_num

theorem marginBucket_mono {m1 m2 : ℚ} (h : m1 ≤ m2) :
    marginBucket m1 ≤ marginBucket m2 := by
  unfold marginBucket; split_ifs <;> linarith

/-- C1: the margin-driven opportunity score is the sum of the margin bucket,
the profit bucket and the price-band bucket, capped at 100, and hence lies in
`[0, 100]` for every input. -/
theorem score_is_capped_bucket_sum (m p a : ℚ) :
    score_product_opportunity m p a =
        min (marginBucket m + profitBucket p + priceBandBucket a) 100 ∧
      0 ≤ score_product_opportunity m p a ∧
      score_product_opportunity m p a ≤ 100 := by
  refine ⟨score_eq_buckets m p a, ?_, ?_⟩
  · rw [score_eq_buckets]
    have h1 := marginBucket_nonneg m
    have h2 := profitBucket_nonneg p
    have h3 := priceBandBucket_nonneg a
    exact le_min (by linarith) (by norm_num)
  · rw [score_eq_buckets]
    exact min_le_right _ _

/-- C2: the margin calculator returns `total_cost = supplier + 5 + retail*0.03`,
`profit = retail - total_cost`, `margin_percent = profit/retail*100` when
`retail > 0`, and `recommended_price = retail*0.9`, each rounded to two
decimals; at `(100, 40)` it yields `(profit, margin, cost, recommended) =
(52, 52, 48, 90)`. -/
theorem calculate_margins_spec (r s : ℚ) :
    (calculate_margins r s).total_cost = round2 (s + 5 + r * (3/100)) ∧
      (calculate_margins r s).profit = round2 (r - (s + 5 + r * (3/100))) ∧
      (0 < r →
        (calculate_margins r s).margin_percent =
          round2 ((r - (s + 5 + r * (3/100))) / r * 100)) ∧
      (calculate_margins r s).recommended_price = round2 (r * (9/10)) ∧
      calculate_margins 100 40 =
        { profit := 52, margin_percent := 52, total_cost := 48,
          recommended_price := 90 } := by
  refine ⟨rfl, rfl, ?_, rfl, ?_⟩
  · intro h
    simp only [calculate_margins, if_pos h]
  · simp only [calculate_margins, Margins.mk.injEq]
    refine ⟨?_, ?_, ?_, ?_⟩
    · exact round2_eq_num 52 (by norm_num) (by norm_num)
    · rw [if_pos (by norm_num : (0:ℚ) < 100)]
      exact round2_eq_num 52 (by norm_num) (by norm_num)
    · exact round2_eq_num 48 (by norm_num) (by norm_num)
    · exact round2_eq_num 90 (by norm_num) (by norm_num)

/-- Witness for C2 at the concrete input `(100, 40)`. -/
theorem calculate_margins_spec_witness :
    (0:ℚ) < 100 ∧
      (calculate_margins 100 40).margin_percent =
        round2 ((100 - (40 + 5 + 100 * (3/100))) / 100 * 100) ∧
      calculate_margins 100 40 =
        { profit := 52, margin_percent := 52, total_cost := 48,
          recommended_price := 90 } :=
  ⟨by norm_num, (calculate_margins_spec 100 40).2.2.1 (by norm_num),
    (calculate_margins_spec 100 40).2.2.2.2⟩

/-- C5: with retail price 0 the division branch is unreachable: the margin
calculator returns `margin_percent = 0` for every supplier price. -/
theorem calculate_margins_zero_price (s : ℚ) :
    (calculate_margins 0 s).margin_percent = 0 := by
  simp only [calculate_margins]
  rw [if_neg (by norm_num : ¬ (0:ℚ) < 0)]
  exact round2_eq_num 0 (by norm_num) (by norm_num)

/-- C7: holding profit and price fixed, the margin-driven score is monotone
in `margin_percent`. -/
theorem score_monotone_in_margin (m1 m2 p a : ℚ) (h : m1 ≤ m2) :
    score_product_opportunity m1 p a ≤ score_product_opportunity m2 p a := by
  rw [score_eq_buckets, score_eq_buckets]
  have hm := marginBucket_mono h
  exact min_le_min (by linarith) le_rfl

/-- Witness for C7 at margins 20 and 50 with profit 0, price 0. -/
theorem score_monotone_in_margin_witness :
    (20:ℚ) ≤ 50 ∧
      score_product_opportunity 20 0 0 ≤ score_product_opportunity 50 0 0 :=
  ⟨by norm_num, score_monotone_in_margin 20 50 0 0 (by norm_num)⟩

theorem dedupeAux_sublist (seen : List String) (l : List RedditItem) :
    (dedupeAux seen l).Sublist l := by
  induction l generalizing seen with
  | nil => simp [dedupeAux]
  | cons x xs ih =>
    unfold dedupeAux
    split_ifs with h
    · exact (ih seen).cons x
    · exact (ih (x.url :: seen)).cons₂ x

theorem mem_dedupeAux_not_seen (seen : List String) (l : List RedditItem)
    (r : RedditItem) (hr : r ∈ dedupeAux seen l) : r.url ∉ seen := by
  induction l generalizing seen with
  | nil => simp [dedupeAux] at hr
  | cons x xs ih =>
    unfold dedupeAux at hr
    split_ifs at hr with h
    · exact ih seen hr
    · rcases List.mem_cons.mp hr with rfl | hr'
      · exact h
      · intro hmem
        exact ih (x.url :: seen) hr' (List.mem_cons_of_mem _ hmem)

theorem dedupeAux_pairwise (seen : List String) (l : List RedditItem) :
    (dedupeAux seen l).Pairwise fun a b => a.url ≠ b.url := by
  induction l generalizing seen with
  | nil => simp [dedupeAux]
  | cons x xs ih =>
    unfold dedupeAux
    split_ifs with h
    · exact ih seen
    · refine List.Pairwise.cons ?_ (ih (x.url :: seen))
      intro b hb hurl
      exact mem_dedupeAux_not_seen _ _ _ hb (hurl ▸ List.mem_cons_self _ _)

theorem dedupeAux_first_occurrence (seen : List String) (l : List RedditItem)
    (r : RedditItem) (hr : r ∈ dedupeAux seen l) :
    l.find? (fun x => x.url == r.url) = some r := by
  induction l generalizing seen with
  | nil => simp [dedupeAux] at hr
  | cons x xs ih =>
    unfold dedupeAux at hr
    split_ifs at hr with h
    · have hne : (x.url == r.url) = false := by
        have := mem_dedupeAux_not_seen seen xs r hr
        simp only [beq_eq_false_iff_ne, ne_eq]
        intro hxr
        exact this (hxr ▸ h)
      rw [List.find?_cons_of_neg _ (by simp [hne]), ih seen hr]
    · rcases List.mem_cons.mp hr with rfl | hr'
      · rw [List.find?_cons_of_pos _ (by simp)]
      · have hnotin := mem_dedupeAux_not_seen _ _ _ hr'
        have hne : (x.url == r.url) = false := by
          simp only [beq_eq_false_iff_ne, ne_eq]
          intro hxr
          exact hnotin (hxr ▸ List.mem_cons_self _ _)
        rw [List.find?_cons_of_neg _ (by simp [hne]), ih (x.url :: seen) hr']

theorem dedupeAux_mem_url (seen : List String) (l : List RedditItem)
    (x : RedditItem) (hx : x ∈ l) (hseen : x.url ∉ seen) :
    ∃ r, r ∈ dedupeAux seen l ∧ r.url = x.url := by
  induction l generalizing seen with
  | nil => simp at hx
  | cons y ys ih =>
    unfold dedupeAux
    split_ifs with h
    · rcases List.mem_cons.mp hx with rfl | hx'
      · exact absurd h hseen
      · exact ih seen hx' hseen
    · rcases List.mem_cons.mp hx with rfl | hx'
      · exact ⟨x, List.mem_cons_self _ _, rfl⟩
      · by_cases hurl : x.url = y.url
        · exact ⟨y, List.mem_cons_self _ _, hurl.symm⟩
        · obtain ⟨r, hr, hru⟩ := ih (y.url :: seen) hx'
            (by
              intro hmem
              rcases List.mem_cons.mp hmem with heq | hmem'
              · exact hurl heq
              · exact hseen hmem')
          exact ⟨r, List.mem_cons_of_mem _ hr, hru⟩

/-- C3: deduplication by url returns a subsequence of the input whose urls are
pairwise distinct, every kept record is the first occurrence of its url in
input order, for every input record the first occurrence of its url IS kept,
and the output is never longer than the input. -/
theorem dedupe_spec (l : List RedditItem) :
    (dedupe l).Sublist l ∧
      ((dedupe l).Pairwise fun a b => a.url ≠ b.url) ∧
      (∀ r, r ∈ dedupe l → l.find? (fun x => x.url == r.url) = some r) ∧
      (∀ x, x ∈ l → ∀ fr, l.find? (fun y => y.url == x.url) = some fr →
        fr ∈ dedupe l) ∧
      (dedupe l).length ≤ l.length := by
  refine ⟨dedupeAux_sublist [] l, dedupeAux_pairwise [] l, ?_, ?_, ?_⟩
  · intro r hr
    exact dedupeAux_first_occurrence [] l r hr
  · intro x hx fr hfr
    obtain ⟨r, hr, hurl⟩ :=
      dedupeAux_mem_url [] l x hx (List.not_mem_nil _)
    have hfind := dedupeAux_first_occurrence [] l r hr
    rw [hurl] at hfind
    obtain rfl := Option.some.inj (hfr.symm.trans hfind)
    exact hr
  · exact (dedupeAux_sublist [] l).length_le

/-- Witness for C3 on the list `[A, A2, B]` (A and A2 share a url): the first
A is found as the first occurrence of the duplicate url and is kept. -/
theorem dedupe_spec_witness :
    (dedupe exItems).Sublist exItems ∧
      exItems.find? (fun x => x.url == itemA.url) = some itemA ∧
      itemA2 ∈ exItems ∧
      exItems.find? (fun y => y.url == itemA2.url) = some itemA ∧
      itemA ∈ dedupe exItems ∧
      (dedupe exItems).length ≤ exItems.length :=
  ⟨(dedupe_spec exItems).1,
    (dedupe_spec exItems).2.2.1 itemA (by decide),
    by decide,
    by decide,
    (dedupe_spec exItems).2.2.2.1 itemA2 (by decide) itemA (by decide),
    (dedupe_spec exItems).2.2.2.2⟩

/-- C4 (amended): the categorizer runs case-insensitive keyword-containment
rules in the fixed order Pet Supplies, Kitchen, Home & Garden, Fitness,
Baby Products, first match winning, unmatched names mapping to Other;
`"Stainless Steel Dog Leash"` maps to Pet Supplies and `"Wireless Mouse"` to
Other, but `"Ceramic Coffee Mug"` maps to Other (no Kitchen keyword —
kitchen/cook/food/bowl — occurs in it), not Kitchen. -/
theorem guess_category_ordered_rules (name : String) :
    (kwMatch petWords (lowerStr name) = true →
        guess_category name = "Pet Supplies") ∧
      (kwMatch petWords (lowerStr name) = false →
        kwMatch kitchenWords (lowerStr name) = true →
        guess_category name = "Kitchen") ∧
      (kwMatch petWords (lowerStr name) = false →
        kwMatch kitchenWords (lowerStr name) = false →
        kwMatch homeWords (lowerStr name) = true →
        guess_category name = "Home & Garden") ∧
      (kwMatch petWords (lowerStr name) = false →
        kwMatch kitchenWords (lowerStr name) = false →
        kwMatch homeWords (lowerStr name) = false →
        kwMatch fitnessWords (lowerStr name) = true →
        guess_category name = "Fitness") ∧
      (kwMatch petWords (lowerStr name) = false →
        kwMatch kitchenWords (lowerStr name) = false →
        kwMatch homeWords (lowerStr name) = false →
        kwMatch fitnessWords (lowerStr name) = false →
        kwMatch babyWords (lowerStr name) = true →
        guess_category name = "Baby Products") ∧
      (kwMatch petWords (lowerStr name) = false →
        kwMatch kitchenWords (lowerStr name) = false →
        kwMatch homeWords (lowerStr name) = false →
        kwMatch fitnessWords (lowerStr name) = false →
        kwMatch babyWords (lowerStr name) = false →
        guess_category name = "Other") ∧
      guess_category "Stainless Steel Dog Leash" = "Pet Supplies" ∧
      guess_category "Ceramic Coffee Mug" = "Other" ∧
      guess_category "Wireless Mouse" = "Other" := by
  refine ⟨?_, ?_, ?_, ?_, ?_, ?_, by decide, by decide, by decide⟩ <;>
    · intros
      simp only [guess_category]
      simp_all

/-- Witness for C4 on `"Stainless Steel Dog Leash"`. -/
theorem guess_category_ordered_rules_witness :
    kwMatch petWords (lowerStr "Stainless Steel Dog Leash") = true ∧
      guess_category "Stainless Steel Dog Leash" = "Pet Supplies" :=
  ⟨by decide,
    (guess_category_ordered_rules "Stainless Steel Dog Leash").1 (by decide)⟩

/-- Counterexample to C4 as stated: the code maps `"Ceramic Coffee Mug"` to
`Other`, not `Kitchen`. -/
theorem guess_category_coffee_mug_not_kitchen :
    guess_category "Ceramic Coffee Mug" = "Other" ∧
      guess_category "Ceramic Coffee Mug" ≠ "Kitchen" := by
  constructor <;> decide

theorem update_length (sheet : List ProductRow) (i : Nat) (st nt : String) :
    (update_product_status sheet i st nt).length = sheet.length := by
  induction sheet generalizing i with
  | nil => rfl
  | cons r rest ih =>
    cases i with
    | zero => rfl
    | succ n => simp [update_product_status, ih n]

theorem update_get_ne (sheet : List ProductRow) (i j : Nat) (st nt : String)
    (h : j ≠ i) :
    (update_product_status sheet i st nt).get? j = sheet.get? j := by
  induction sheet generalizing i j with
  | nil => rfl
  | cons r rest ih =>
    cases i with
    | zero =>
      cases j with
      | zero => exact absurd rfl h
      | succ k => rfl
    | succ n =>
      cases j with
      | zero => rfl
      | succ k =>
        simp only [update_product_status, List.get?_cons_succ]
        exact ih n k fun hk => h (by rw [hk])

theorem update_get_eq (sheet : List ProductRow) (i : Nat) (st nt : String)
    (r : ProductRow) (h : sheet.get? i = some r) :
    (update_product_status sheet i st nt).get? i =
      some { r with status := st, notes := nt } := by
  induction sheet generalizing i with
  | nil => simp [List.get?] at h
  | cons x rest ih =>
    cases i with
    | zero =>
      simp only [List.get?_cons_zero, Option.some.injEq] at h
      subst h
      rfl
    | succ n =>
      simp only [List.get?_cons_succ] at h
      simp only [update_product_status, List.get?_cons_succ]
      exact ih n h

/-- C6 (amended): `set_status(id, "approved")` followed by
`set_status(id, "pending")` returns the record's status to `pending` and
leaves every field other than status and notes, and every other row,
unchanged; but the notes column is rewritten on every call with the supplied
notes value (the Python default is `""`), so the previously stored notes are
NOT retained when no notes value is supplied. -/
theorem set_status_approved_then_pending (sheet : List ProductRow) (i : Nat)
    (n1 n2 : String) :
    (update_product_status (update_product_status sheet i "approved" n1) i
          "pending" n2).length = sheet.length ∧
      (∀ j, j ≠ i →
        (update_product_status (update_product_status sheet i "approved" n1) i
            "pending" n2).get? j = sheet.get? j) ∧
      (∀ r, sheet.get? i = some r →
        (update_product_status (update_product_status sheet i "approved" n1) i
            "pending" n2).get? i =
          some { r with status := "pending", notes := n2 }) := by
  refine ⟨?_, ?_, ?_⟩
  · rw [update_length, update_length]
  · intro j hj
    rw [update_get_ne _ _ _ _ _ hj, update_get_ne _ _ _ _ _ hj]
  · intro r h
    have h1 := update_get_eq sheet i "approved" n1 r h
    have h2 := update_get_eq _ i "pending" n2 _ h1
    exact h2

/-- Witness for C6 on a one-row sheet, row 0. -/
theorem set_status_approved_then_pending_witness :
    (1 : Nat) ≠ 0 ∧
      (update_product_status (update_product_status [exRow] 0 "approved" "") 0
          "pending" "").get? 1 = ([exRow] : List ProductRow).get? 1 ∧
      ([exRow] : List ProductRow).get? 0 = some exRow ∧
      (update_product_status (update_product_status [exRow] 0 "approved" "") 0
          "pending" "").get? 0 =
        some { exRow with status := "pending", notes := "" } :=
  ⟨by decide,
    (set_status_approved_then_pending [exRow] 0 "" "").2.1 1 (by decide),
    rfl,
    (set_status_approved_then_pending [exRow] 0 "" "").2.2 exRow rfl⟩

/-- Counterexample to C6 as stated: an approve-then-revert sequence with no
notes supplied (Python default `""`) wipes the previously stored notes. -/
theorem set_status_notes_not_retained :
    (update_product_status (update_product_status [exRow] 0 "approved" "") 0
          "pending" "").map ProductRow.notes = [""] ∧
      exRow.notes = "keep me" ∧ ("" : String) ≠ "keep me" := by
  refine ⟨by decide, by decide, by decide⟩

/-- C8 (amended): the Shopify export yields exactly one row per input record,
with `Handle` the lower-cased name with spaces replaced by hyphens, `Tags`
the string `"category, country, Score-N"`, `Variant Price` the price with the
`"$"` removed and `"N/A"` replaced by `"0"` (not stripped to the empty
string), and constant `Status` `"draft"`; the input records are not mutated
(the export is a pure map). -/
theorem export_to_shopify_csv_spec (df : List ProductRow) :
    (export_to_shopify_csv df).length = df.length ∧
      (∀ i x, df.get? i = some x →
        (export_to_shopify_csv df).get? i = some (shopifyRowOf x)) ∧
      (∀ x : ProductRow,
        (shopifyRowOf x).handle = replStr " " "-" (lowerStr x.product_name) ∧
          (shopifyRowOf x).tags =
            x.category ++ ", " ++ x.country ++ ", Score-" ++
              toString x.overall_score ∧
          (shopifyRowOf x).variant_price =
            replStr "N/A" "0" (replStr "$" "" x.price) ∧
          (shopifyRowOf x).status = "draft") := by
  refine ⟨List.length_map _ _, ?_, ?_⟩
  · intro i x h
    rw [export_to_shopify_csv, List.get?_map, h, Option.map_some']
  · intro x
    exact ⟨rfl, rfl, rfl, rfl⟩

/-- Witness for C8 on the one-record list `[exRow]`. -/
theorem export_to_shopify_csv_spec_witness :
    ([exRow] : List ProductRow).get? 0 = some exRow ∧
      (export_to_shopify_csv [exRow]).get? 0 = some (shopifyRowOf exRow) :=
  ⟨rfl, (export_to_shopify_csv_spec [exRow]).2.1 0 exRow rfl⟩

/-- Counterexample to C8 as stated: on a record whose price cell is `"N/A"`
the code writes `Variant Price = "0"`, while stripping `"N/A"` as the claim
words it would leave `""`. -/
theorem export_variant_price_na_not_stripped :
    (export_to_shopify_csv [exRowNA]).map ShopifyRow.variant_price = ["0"] ∧
      specVariantPrice "N/A" = "" ∧ ("0" : String) ≠ "" := by
  refine ⟨by decide, by decide, by decide⟩

/-- C9: the article parser always returns a list, and every failure mode —
fetch or model exception, `eval` exception, or a value that is not a list —
yields the empty list rather than an exception; a successfully parsed list is
returned as is. -/
theorem parse_article_returns_list (α : Type) (fetched : Option String)
    (ev : String → Option (PyVal α)) :
    (fetched = none → parse_article_for_products α fetched ev = []) ∧
      (∀ t, fetched = some t → ev (preprocess t) = none →
        parse_article_for_products α fetched ev = []) ∧
      (∀ t, fetched = some t → ev (preprocess t) = some PyVal.nonlist →
        parse_article_for_products α fetched ev = []) ∧
      (∀ t xs, fetched = some t → ev (preprocess t) = some (PyVal.plist xs) →
        parse_article_for_products α fetched ev = xs) := by
  refine ⟨?_, ?_, ?_, ?_⟩
  · rintro rfl
    rfl
  · rintro t rfl h
    simp [parse_article_for_products, h]
  · rintro t rfl h
    simp [parse_article_for_products, h]
  · rintro t xs rfl h
    simp [parse_article_for_products, h]

/-- Witness for C9: a failed fetch and a failing `eval` both yield `[]`. -/
theorem parse_article_returns_list_witness :
    (none : Option String) = none ∧
      parse_article_for_products String none (fun _ => none) = [] :=
  ⟨rfl, (parse_article_returns_list String none (fun _ => none)).1 rfl⟩

/-- C10: every product record the pipeline keeps has `margin_percent ≥ 25`
(candidates below 25 are dropped before scoring), and every sheet row built
for persistence carries the initial status `"pending"`. -/
theorem pipeline_margin_and_pending_invariant (articles : List ArticleInfo)
    (parse_names : String → List String)
    (amazon : String → Option AmazonData)
    (supplier : String → Option SupplierData) :
    (∀ p, p ∈ process_products articles parse_names amazon supplier →
        25 ≤ p.margin_percent) ∧
      (∀ fmt now row,
        row ∈ save_to_google_sheets_rows fmt now
            (process_products articles parse_names amazon supplier) →
        row.status = "pending" ∧ row.notes = "") := by
  constructor
  · intro p hp
    unfold process_products at hp
    obtain ⟨article, -, hmem⟩ := List.mem_flatMap.mp hp
    obtain ⟨pname, -, heq⟩ := List.mem_filterMap.mp hmem
    cases ha : amazon pname with
    | none => rw [ha] at heq; simp at heq
    | some a =>
      rw [ha] at heq
      dsimp only at heq
      cases hs : supplier pname with
      | none => rw [hs] at heq; simp at heq
      | some s =>
        rw [hs] at heq
        dsimp only at heq
        by_cases hm :
          (calculate_margins a.amazon_price s.supplier_price).margin_percent
            < 25
        · rw [if_pos hm] at heq
          simp at heq
        · rw [if_neg hm] at heq
          obtain rfl := Option.some.inj heq
          exact not_lt.mp hm
  · intro fmt now row hrow
    obtain ⟨p, -, rfl⟩ := List.mem_map.mp hrow
    exact ⟨rfl, rfl⟩

/-- Concrete pipeline run: one article, one product name, Amazon price 100,
supplier price 10 (margin 82%), yielding exactly `exProduct`. -/
theorem process_products_ex :
    process_products [exArticle] exParseNames exAmazonSearch exSupplierSearch
      = [exProduct] := by
  have hcm : calculate_margins (100:ℚ) 10 = ⟨82, 82, 18, 90⟩ := by
    simp only [calculate_margins, Margins.mk.injEq]
    refine ⟨round2_eq_num 82 (by norm_num) (by norm_num), ?_,
      round2_eq_num 18 (by norm_num) (by norm_num),
      round2_eq_num 90 (by norm_num) (by norm_num)⟩
    rw [if_pos (by norm_num : (0:ℚ) < 100)]
    exact round2_eq_num 82 (by norm_num) (by norm_num)
  have hsc : score_product_opportunity 82 82 100 = 90 := by
    rw [score_eq_buckets]
    norm_num [marginBucket, profitBucket, priceBandBucket, min_def]
  unfold process_products exParseNames exAmazonSearch exSupplierSearch
  simp only [exArticle, exAmazonData, exSupplierData]
  simp only [List.take, List.flatMap, List.filterMap, List.map, List.flatten,
    List.append_nil]
  rw [hcm]
  norm_num
  simp only [exProduct, ProductData.mk.injEq]
  norm_num [hsc]
  decide

/-- Witness for C10 on the concrete pipeline run. -/
theorem pipeline_margin_and_pending_invariant_witness :
    (25:ℚ) ≤ exProduct.margin_percent ∧ exSheetRow.status = "pending" ∧
      exSheetRow.notes = "" := by
  have h := pipeline_margin_and_pending_invariant [exArticle] exParseNames
    exAmazonSearch exSupplierSearch
  have hrow := h.2 exFmt "2025-01-01" exSheetRow
    (by rw [process_products_ex]; decide)
  exact ⟨h.1 exProduct (by rw [process_products_ex]; decide), hrow.1, hrow.2⟩

end MRBot
